import Mathlib

/-!
Verification development for the offline document vault (DocSafe).

The key-management and session-authentication core lives in the AuthContext
module (src/src/contexts/AuthContext.tsx and the richer rewritten variants in
src/unnamed/part_003) on top of the crypto helpers of src/lib/crypto.ts
(src/unnamed/part_009, first document) and the IndexedDB settings store of
src/lib/storage.ts (embedded in src/src/pages/AddDocumentPage.tsx, second
document).

The Web Crypto primitives (SHA-256, PBKDF2, AES-GCM), the base64 codec
(btoa/atob) and the UTF-8 text codec are external platform collaborators; they
are modelled as fields of parameter structures, and every random draw
(crypto.getRandomValues, generateKey) is passed as an explicit argument.
Byte buffers are modelled as List Nat; settings values are strings, exactly as
in the source, where every persisted value goes through base64.
-/

namespace DocSafe

/-! ## Model of src/lib/crypto.ts (src/unnamed/part_009, first document) -/

/-- External collaborator crypto.subtle for AES-GCM: encrypt takes the iv, the
key and the plaintext; decrypt returns none on AuthenticationError (tampered
ciphertext or wrong key/iv). -/
structure Aead (Key : Type) where
  subtleEncrypt : List Nat → Key → List Nat → List Nat
  subtleDecrypt : List Nat → Key → List Nat → Option (List Nat)

/-- Model of encryptData: the 12-byte iv drawn by crypto.getRandomValues is an
explicit argument; returns the ciphertext and the iv, as the source returns
the pair (encrypted, iv). -/
def encryptData {Key : Type} (A : Aead Key) (data : List Nat) (key : Key)
    (iv : List Nat) : List Nat × List Nat :=
  (A.subtleEncrypt iv key data, iv)

/-- Model of decryptData: authenticated decryption of the given ciphertext
under the given key and iv. -/
def decryptData {Key : Type} (A : Aead Key) (encrypted : List Nat) (key : Key)
    (iv : List Nat) : Option (List Nat) :=
  A.subtleDecrypt iv key encrypted

/-- External collaborator TextEncoder / TextDecoder. -/
structure TextCodec where
  encode : String → List Nat
  decode : List Nat → String

/-- External collaborator btoa / atob as used by arrayBufferToBase64 and
base64ToArrayBuffer in the source. -/
structure B64 where
  arrayBufferToBase64 : List Nat → String
  base64ToArrayBuffer : String → List Nat

/-- Model of encryptString: encode the text, encrypt it, prepend the iv to the
ciphertext and base64 the combined buffer. -/
def encryptString {Key : Type} (A : Aead Key) (T : TextCodec) (B : B64)
    (text : String) (key : Key) (iv : List Nat) : String :=
  let data := T.encode text
  let r := encryptData A data key iv
  let combined := r.2 ++ r.1
  B.arrayBufferToBase64 combined

/-- Model of decryptString: split the combined buffer after the 12 iv bytes,
decrypt the remainder, decode the plaintext. -/
def decryptString {Key : Type} (A : Aead Key) (T : TextCodec) (B : B64)
    (encryptedData : String) (key : Key) : Option String :=
  let combined := B.base64ToArrayBuffer encryptedData
  let iv := combined.take 12
  let encrypted := combined.drop 12
  (decryptData A encrypted key iv).map T.decode

/-! ## Model of the crypto interface as imported by AuthContext

AuthContext imports hashPin, deriveKeyFromPin, generateKey, exportKey,
importKey, encryptString and decryptString from the crypto module and treats
them as opaque operations on strings and CryptoKey values.  The structure
below abstracts exactly that imported interface.  The Nat argument of
encryptStr stands for the random iv draw made inside encryptData; the result
of generateKey is passed to setup as an explicit fresh key.  btoa and atob are
the platform base64 functions applied to the raw salt bytes by AuthContext
itself. -/

structure Crypto (Key : Type) where
  hashPin : String → String
  deriveKeyFromPin : String → List Nat → Key
  exportKey : Key → String
  importKey : String → Key
  encryptStr : String → Key → Nat → String
  decryptStr : String → Key → Option String
  btoa : List Nat → String
  atob : String → List Nat

/-! ## Model of the settings store (src/lib/storage.ts)

saveSetting does database.put on the settings object store keyed by the
setting name; getSetting reads one key.  The store is modelled as an
association list in which a put prepends the new pair; getSetting returns the
most recent value for a key, which is observationally the put/get behavior of
the IndexedDB object store. -/

abbrev Settings := List (String × String)

def saveSetting (s : Settings) (key value : String) : Settings :=
  (key, value) :: s

def getSetting (s : Settings) (key : String) : Option String :=
  (s.find? (fun p => p.1 == key)).map (fun p => p.2)

/-- JavaScript truthiness test on an optional string setting, as in the
source checks of the form if (!storedHash): both a missing setting and the
empty string are falsy. -/
def truthyGet (s : Settings) (key : String) : Option String :=
  match getSetting s key with
  | some v => if v = "" then none else some v
  | none => none

/-! ## Model of the AuthContext provider state

The React component state of AuthProvider (the rich variant of
src/unnamed/part_003, lines 342-350): the settings store plus
isAuthenticated, isSetup, the in-memory encryptionKey, lastActivity and the
two biometric flags. -/

structure AuthS (Key : Type) where
  settings : Settings
  isAuthenticated : Bool
  isSetup : Bool
  encryptionKey : Option Key
  lastActivity : Nat
  isBiometricsAvailable : Bool
  biometricsEnabled : Bool
deriving DecidableEq

/-- Model of the JavaScript String.prototype.toLowerCase call used on recovery
answers, written over the character list so that it evaluates in the kernel. -/
def toLowerJs (s : String) : String := ⟨s.data.map Char.toLower⟩

/-- Model of the JavaScript String.prototype.trim call: drop leading and
trailing whitespace. -/
def trimJs (s : String) : String :=
  ⟨((s.data.dropWhile Char.isWhitespace).reverse.dropWhile Char.isWhitespace).reverse⟩

/-- The normalization applied by the source to every recovery answer before
hashing or key derivation: answer.toLowerCase().trim(). -/
def normalizeAnswer (s : String) : String := trimJs (toLowerJs s)

/-- Model of setup (part_003 lines 417-457; identical text at lines 99-139):
one 16-byte salt is drawn, the password hash and the normalized-answer hash
are both computed against its base64 form, the fresh master key is wrapped
once under the password-derived key and once under the answer-derived key,
and six settings are persisted; biometricsEnabled is persisted when the
platform reports biometrics available.  The component then holds the key,
marks the app set up and authenticated and touches activity.  The source
never checks whether the vault is already configured. -/
def setup {Key : Type} (C : Crypto Key) (v : AuthS Key)
    (password secretQuestion secretAnswer : String)
    (salt : List Nat) (freshKey : Key) (iv1 iv2 : Nat) (now : Nat) :
    AuthS Key :=
  let saltBase64 := C.btoa salt
  let passwordHash := C.hashPin (password ++ saltBase64)
  let secretAnswerHash := C.hashPin (normalizeAnswer secretAnswer ++ saltBase64)
  let exportedKey := C.exportKey freshKey
  let passwordKey := C.deriveKeyFromPin password salt
  let encryptedMainKey := C.encryptStr exportedKey passwordKey iv1
  let secretKey := C.deriveKeyFromPin (normalizeAnswer secretAnswer) salt
  let encryptedMainKeyForRecovery := C.encryptStr exportedKey secretKey iv2
  let s1 := saveSetting v.settings "passwordHash" passwordHash
  let s2 := saveSetting s1 "salt" saltBase64
  let s3 := saveSetting s2 "encryptedKey" encryptedMainKey
  let s4 := saveSetting s3 "secretQuestion" secretQuestion
  let s5 := saveSetting s4 "secretAnswerHash" secretAnswerHash
  let s6 := saveSetting s5 "encryptedKeyRecovery" encryptedMainKeyForRecovery
  let s7 := if v.isBiometricsAvailable then
      saveSetting s6 "biometricsEnabled" "true" else s6
  { v with settings := s7, encryptionKey := some freshKey, isSetup := true,
           isAuthenticated := true, lastActivity := now }

/-- Model of login (part_003 lines 514-544; same text at 196-226 and in
AuthContext.tsx lines 128-158): read the three settings, fast-reject on a
verifier-hash mismatch, then derive the wrap key from the candidate password
and the stored salt and decrypt the wrapped master key.  A decryption
AuthenticationError is caught by the surrounding try/catch and surfaces as
the same false as a wrong password.  Only on full success is the key stored
and the state marked authenticated. -/
def login {Key : Type} (C : Crypto Key) (v : AuthS Key) (password : String)
    (now : Nat) : Bool × AuthS Key :=
  match truthyGet v.settings "passwordHash", truthyGet v.settings "salt",
        truthyGet v.settings "encryptedKey" with
  | some storedHash, some saltBase64, some encryptedMainKey =>
    let inputHash := C.hashPin (password ++ saltBase64)
    if inputHash = storedHash then
      let salt := C.atob saltBase64
      let passwordKey := C.deriveKeyFromPin password salt
      match C.decryptStr encryptedMainKey passwordKey with
      | some mainKeyExported =>
        let mainKey := C.importKey mainKeyExported
        (true, { v with encryptionKey := some mainKey,
                        isAuthenticated := true, lastActivity := now })
      | none => (false, v)
    else (false, v)
  | _, _, _ => (false, v)

/-- Model of verifySecretAnswer (part_003 lines 463-476; identical at
145-158): normalize the candidate with toLowerCase().trim(), hash it with
the stored salt and compare against the stored answer hash.  No decryption
is attempted and no state changes. -/
def verifySecretAnswer {Key : Type} (C : Crypto Key) (v : AuthS Key)
    (answer : String) : Bool :=
  match truthyGet v.settings "secretAnswerHash", truthyGet v.settings "salt" with
  | some storedHash, some saltBase64 =>
    C.hashPin (normalizeAnswer answer ++ saltBase64) == storedHash
  | _, _ => false

/-- Model of resetPasswordWithSecret (part_003 lines 478-512; identical at
160-194): after checking that a salt and a recovery-wrapped key exist, it
draws a new salt, hashes the new password against it and persists only the
new passwordHash and the new salt.  The source reads secretAnswerHash and
decodes the old salt but never uses them, and it never re-wraps the master
key: encryptedKey and encryptedKeyRecovery are left as they were. -/
def resetPasswordWithSecret {Key : Type} (C : Crypto Key) (v : AuthS Key)
    (newPassword : String) (newSalt : List Nat) : Bool × AuthS Key :=
  match truthyGet v.settings "salt", truthyGet v.settings "encryptedKeyRecovery" with
  | some _saltBase64, some _encryptedKeyRecovery =>
    let newSaltBase64 := C.btoa newSalt
    let newPasswordHash := C.hashPin (newPassword ++ newSaltBase64)
    let s1 := saveSetting v.settings "passwordHash" newPasswordHash
    let s2 := saveSetting s1 "salt" newSaltBase64
    (true, { v with settings := s2 })
  | _, _ => (false, v)

/-- Model of enableBiometrics (part_003 lines 590-613): re-verify the
password against the stored verifier hash, then persist the password itself
under biometricsPassword, copy the password-wrapped master key to
encryptedKeyBiometrics, persist biometricsEnabled and set the component
flag. -/
def enableBiometrics {Key : Type} (C : Crypto Key) (v : AuthS Key)
    (password : String) : Bool × AuthS Key :=
  match truthyGet v.settings "passwordHash", truthyGet v.settings "salt",
        truthyGet v.settings "encryptedKey" with
  | some storedHash, some saltBase64, some encryptedMainKey =>
    if C.hashPin (password ++ saltBase64) = storedHash then
      let s1 := saveSetting v.settings "biometricsPassword" password
      let s2 := saveSetting s1 "encryptedKeyBiometrics" encryptedMainKey
      let s3 := saveSetting s2 "biometricsEnabled" "true"
      (true, { v with settings := s3, biometricsEnabled := true })
    else (false, v)
  | _, _, _ => (false, v)

/-- Model of loginWithBiometrics (part_003 lines 546-588).  bioSuccess is the
result of the external authenticateWithBiometrics collaborator.  On platform
success the code tries to decrypt encryptedKeyBiometrics with a key derived
from the stored plaintext biometricsPassword; if any of the three settings is
missing or falsy, or if decryption throws, it falls back to marking the
session authenticated WITHOUT any encryption key and still returns true. -/
def loginWithBiometrics {Key : Type} (C : Crypto Key) (v : AuthS Key)
    (bioSuccess : Bool) (now : Nat) : Bool × AuthS Key :=
  if !v.isBiometricsAvailable || !v.biometricsEnabled then (false, v)
  else if bioSuccess then
    let fallback := (true, { v with isAuthenticated := true, lastActivity := now })
    match truthyGet v.settings "encryptedKeyBiometrics",
          truthyGet v.settings "salt" with
    | some encryptedKeyBio, some saltBase64 =>
      match truthyGet v.settings "biometricsPassword" with
      | some storedPassword =>
        let salt := C.atob saltBase64
        let passwordKey := C.deriveKeyFromPin storedPassword salt
        match C.decryptStr encryptedKeyBio passwordKey with
        | some mainKeyExported =>
          let mainKey := C.importKey mainKeyExported
          (true, { v with encryptionKey := some mainKey,
                          isAuthenticated := true, lastActivity := now })
        | none => fallback
      | none => fallback
    | _, _ => fallback
  else (false, v)

/-- Model of logout (part_003 lines 622-625): drop the authenticated flag and
the in-memory key. -/
def logout {Key : Type} (v : AuthS Key) : AuthS Key :=
  { v with isAuthenticated := false, encryptionKey := none }

/-! ## Model of the auto-lock inactivity check

AuthContext.tsx lines 64-75: a 10-second interval fires logout() exactly when
Date.now() - lastActivity > INACTIVITY_TIMEOUT, with the timeout hardcoded to
five minutes in milliseconds. -/

def INACTIVITY_TIMEOUT : Int := 5 * 60 * 1000

/-- Condition under which the auto-lock interval callback calls logout: a
strict greater-than comparison of the elapsed time against the timeout. -/
def autoLockFires (now lastActivity : Int) : Bool :=
  now - lastActivity > INACTIVITY_TIMEOUT

/-! ## Concrete instantiations of the external collaborators

The theorems below are stated over arbitrary collaborators satisfying the
documented platform contracts (deterministic hash, base64 being a bijection,
AES-GCM decryption inverting encryption under the same key and failing
authentication otherwise).  The following executable instances realize those
contracts on concrete inputs, so that counterexamples and witnesses can be
checked by evaluation.  Keys are modelled as the pair of the input secret and
salt, so that two derived keys agree exactly when secret and salt agree. -/

def natsEnc (l : List Nat) : String := ⟨l.map (fun n => Char.ofNat (n + 65))⟩

def natsDec (s : String) : List Nat := s.data.map (fun c => c.toNat - 65)

def keyTag (k : String × List Nat) : String := k.1 ++ "." ++ natsEnc k.2 ++ "/"

/-- Executable instance of the crypto interface: the hash prefixes its input,
key derivation pairs the secret with the salt, and the cipher tags the
plaintext with the exact key so that decryption under any other key fails
authentication. -/
def cc : Crypto (String × List Nat) where
  hashPin s := "#" ++ s
  deriveKeyFromPin pin salt := (pin, salt)
  exportKey k := k.1
  importKey s := (s, [])
  encryptStr pt k _iv := keyTag k ++ pt
  decryptStr ct k :=
    if (keyTag k).data.isPrefixOf ct.data then
      some ⟨ct.data.drop (keyTag k).data.length⟩
    else none
  btoa := natsEnc
  atob := natsDec

/-- Variant of cc whose hash is the identity, used where a theorem assumes the
hash is collision-free on the relevant inputs. -/
def ccId : Crypto (String × List Nat) :=
  { cc with hashPin := fun s => s }

/-- Fresh never-configured provider state with biometrics unavailable. -/
def v0 : AuthS (String × List Nat) :=
  { settings := [], isAuthenticated := false, isSetup := false,
    encryptionKey := none, lastActivity := 0,
    isBiometricsAvailable := false, biometricsEnabled := false }

/-- Fresh state on a platform that reports biometrics available. -/
def v0b : AuthS (String × List Nat) :=
  { v0 with isBiometricsAvailable := true }

def salt1 : List Nat := [0, 1, 2, 3, 4, 5, 6, 7, 8, 9, 10, 11, 12, 13, 14, 15]

def salt2 : List Nat := [1, 2, 3, 4, 5, 6, 7, 8, 9, 10, 11, 12, 13, 14, 15, 16]

/-- The concrete scenario of the spec: setup with secret Sup3r!Pass, question
city of birth, answer Paris. -/
def vSetup : AuthS (String × List Nat) :=
  setup cc v0 "Sup3r!Pass" "city of birth" "Paris" salt1 ("MK", []) 0 1 100

/-- vSetup after the recovery flow resets the password to NewPass. -/
def vReset : AuthS (String × List Nat) :=
  (resetPasswordWithSecret cc vSetup "NewPass" salt2).2

/-- vSetup with the persisted wrapped master key replaced by a tampered
value that fails authenticated decryption. -/
def vTamper : AuthS (String × List Nat) :=
  { vSetup with settings := saveSetting vSetup.settings "encryptedKey" "garbage" }

/-- Biometric trace, step 1: setup on a biometrics-capable device. -/
def bio1 : AuthS (String × List Nat) :=
  setup cc v0b "Sup3r!Pass" "city of birth" "Paris" salt1 ("MK", []) 0 1 100

/-- Biometric trace, step 2: the user enables the biometric gate with the
verified password. -/
def bio2 : AuthS (String × List Nat) :=
  (enableBiometrics cc bio1 "Sup3r!Pass").2

/-- Biometric trace, step 3: the password is reset through the recovery flow,
which replaces the stored salt. -/
def bio3 : AuthS (String × List Nat) :=
  (resetPasswordWithSecret cc bio2 "NewPass" salt2).2

/-- Biometric trace, step 4: the session is locked. -/
def bio4 : AuthS (String × List Nat) :=
  logout bio3

/-- Double-setup trace: first configuration. -/
def dbl1 : AuthS (String × List Nat) :=
  setup cc v0 "p1" "q1" "a1" salt1 ("K1", []) 0 1 10

/-- Double-setup trace: a second setup call on the already-configured
vault, with a different password, answer, salt and master key. -/
def dbl2 : AuthS (String × List Nat) :=
  setup cc dbl1 "p2" "q2" "a2" salt2 ("K2", []) 2 3 20

/-- Executable AES-GCM stand-in for the part_009 roundtrip statement: the
ciphertext carries the plaintext followed by the iv and key, and decryption
checks that trailer. -/
def aeadC : Aead Nat where
  subtleEncrypt iv k data := data ++ iv ++ [k]
  subtleDecrypt iv k c :=
    let tag := iv ++ [k]
    if tag.length ≤ c.length then
      if c.drop (c.length - tag.length) = tag then
        some (c.take (c.length - tag.length))
      else none
    else none

/-- Executable text codec: characters to code points. -/
def textC : TextCodec where
  encode s := s.data.map Char.toNat
  decode l := ⟨l.map Char.ofNat⟩

/-- Executable base64 stand-in, injective on byte lists. -/
def b64C : B64 where
  arrayBufferToBase64 := natsEnc
  base64ToArrayBuffer := natsDec

/-! ## Helper lemmas about the settings store -/

theorem getSetting_save_self (s : Settings) (k v : String) :
    getSetting (saveSetting s k v) k = some v := by
  simp [getSetting, saveSetting, List.find?]

theorem getSetting_save_other (s : Settings) {k k2 : String} (v : String)
    (h : k ≠ k2) : getSetting (saveSetting s k v) k2 = getSetting s k2 := by
  have hb : (k == k2) = false := beq_eq_false_iff_ne.mpr h
  simp [getSetting, saveSetting, List.find?, hb]

theorem truthyGet_some {s : Settings} {k x : String}
    (h : truthyGet s k = some x) : getSetting s k = some x := by
  unfold truthyGet at h
  cases hg : getSetting s k with
  | none => rw [hg] at h; exact absurd h (by simp)
  | some v =>
    rw [hg] at h
    by_cases hv : v = ""
    · simp [hv] at h
    · simp only [if_neg hv, Option.some.injEq] at h
      rw [h]

theorem append_right_cancel_str {a b c : String} (h : a ++ c = b ++ c) :
    a = b := by
  cases a with | mk as =>
  cases b with | mk bs =>
  cases c with | mk cs =>
  have hd : as ++ cs = bs ++ cs := congrArg String.data h
  exact congrArg String.mk (List.append_cancel_right hd)

/-- The six settings persisted by setup, read back through getSetting: both
verifier hashes and both wrapped keys are computed against the single salt
drawn at the top of setup. -/
theorem setup_lookups {Key : Type} (C : Crypto Key) (v : AuthS Key)
    (pw q a : String) (salt : List Nat) (fk : Key) (iv1 iv2 now : Nat) :
    getSetting (setup C v pw q a salt fk iv1 iv2 now).settings "passwordHash"
      = some (C.hashPin (pw ++ C.btoa salt)) ∧
    getSetting (setup C v pw q a salt fk iv1 iv2 now).settings "salt"
      = some (C.btoa salt) ∧
    getSetting (setup C v pw q a salt fk iv1 iv2 now).settings "encryptedKey"
      = some (C.encryptStr (C.exportKey fk) (C.deriveKeyFromPin pw salt) iv1) ∧
    getSetting (setup C v pw q a salt fk iv1 iv2 now).settings "secretQuestion"
      = some q ∧
    getSetting (setup C v pw q a salt fk iv1 iv2 now).settings "secretAnswerHash"
      = some (C.hashPin (normalizeAnswer a ++ C.btoa salt)) ∧
    getSetting (setup C v pw q a salt fk iv1 iv2 now).settings "encryptedKeyRecovery"
      = some (C.encryptStr (C.exportKey fk) (C.deriveKeyFromPin (normalizeAnswer a) salt) iv2) := by
  cases hb : v.isBiometricsAvailable <;>
    simp [setup, hb, getSetting, saveSetting, List.find?]

/-! ## Claim theorems -/

/-- C1: the claim says that after a successful verifyRecoveryAnswer followed
by resetPrimarySecret(newSecret), unlockWithSecret(oldSecret) is false and
unlockWithSecret(newSecret) is true.  The code contradicts the second half:
resetPasswordWithSecret persists a new passwordHash and a new salt but never
re-wraps the master key, so after the reset the old secret fails the verifier
and the new secret passes the verifier but fails authenticated decryption of
the stale wrapped key.  On the concrete spec scenario: before the reset the
recovery answer verifies and the old password unlocks; the reset reports
success; afterwards both the old and the new password fail to unlock, and
even the recovery answer no longer verifies because the stored answer hash
was computed against the replaced salt. -/
theorem c1_reset_leaves_vault_locked :
    verifySecretAnswer cc vSetup "Paris" = true ∧
    (login cc vSetup "Sup3r!Pass" 150).1 = true ∧
    (resetPasswordWithSecret cc vSetup "NewPass" salt2).1 = true ∧
    (login cc vReset "Sup3r!Pass" 200).1 = false ∧
    (login cc vReset "NewPass" 200).1 = false ∧
    verifySecretAnswer cc vReset "Paris" = false := by
  decide

/-- C2 counterexample: on a vault set up with the spec scenario and whose
persisted wrappedKey is replaced by a tampered value, the verifier hash for
the correct secret still matches and authenticated decryption fails, yet
login returns exactly the same generic (false, unchanged state) as a wrong
secret does; the Bool result carries no CorruptEnvelope distinct from
WrongSecret. -/
theorem c2_tampered_envelope_generic_false :
    truthyGet vTamper.settings "passwordHash"
      = some (cc.hashPin ("Sup3r!Pass" ++ cc.btoa salt1)) ∧
    cc.decryptStr "garbage" (cc.deriveKeyFromPin "Sup3r!Pass" (cc.atob (cc.btoa salt1)))
      = none ∧
    login cc vTamper "Sup3r!Pass" 200 = (false, vTamper) ∧
    login cc vTamper "wrong" 200 = (false, vTamper) := by
  decide

/-- C2 amended: whenever the stored verifier hash matches the candidate
secret but authenticated decryption of the stored wrapped key fails, login
catches the failure and returns the same generic false as a wrong secret,
with the state unchanged; wrong-secret and corrupt-envelope outcomes are not
distinguished in the return type. -/
theorem c2_tamper_collapses_to_false {Key : Type} (C : Crypto Key)
    (v : AuthS Key) (pw : String) (now : Nat) (sh sb ek : String)
    (h1 : truthyGet v.settings "passwordHash" = some sh)
    (h2 : truthyGet v.settings "salt" = some sb)
    (h3 : truthyGet v.settings "encryptedKey" = some ek)
    (h4 : C.hashPin (pw ++ sb) = sh)
    (h5 : C.decryptStr ek (C.deriveKeyFromPin pw (C.atob sb)) = none) :
    login C v pw now = (false, v) := by
  unfold login
  rw [h1, h2, h3]
  simp only [h4, if_pos rfl, h5]
  simp

/-- Witness for the C2 amended theorem at the concrete tampered state. -/
theorem c2_tamper_collapses_to_false_witness :
    login cc vTamper "Sup3r!Pass" 201 = (false, vTamper) :=
  c2_tamper_collapses_to_false cc vTamper "Sup3r!Pass" 201
    "#Sup3r!PassABCDEFGHIJKLMNOP" "ABCDEFGHIJKLMNOP" "garbage"
    (by decide) (by decide) (by decide) (by decide) (by decide)

/-- C3 counterexample: a reachable authenticated-but-keyless state.  Trace:
setup on a biometrics-capable device, enableBiometrics with the verified
password, resetPasswordWithSecret (which replaces the stored salt), logout.
The biometric prompt then succeeds, decryption of the biometric envelope
fails under the new salt, and loginWithBiometrics falls back to returning
true with isAuthenticated set while the session holds no master key. -/
theorem c3_biometric_keyless_unlock :
    (loginWithBiometrics cc bio4 true 999).1 = true ∧
    (loginWithBiometrics cc bio4 true 999).2.isAuthenticated = true ∧
    (loginWithBiometrics cc bio4 true 999).2.encryptionKey = none := by
  decide

/-- C3 amended: when biometrics are available and enabled, the platform
prompt succeeds, all three biometric settings are present and the biometric
envelope decrypts, loginWithBiometrics returns true AND stores the unwrapped
master key; the authenticated-but-keyless outcome arises exactly on the
fallback paths where the envelope is missing or fails to decrypt. -/
theorem c3_biometric_unlock_populates_key_when_decryptable {Key : Type}
    (C : Crypto Key) (v : AuthS Key) (now : Nat) (ekb sb sp mke : String)
    (hav : v.isBiometricsAvailable = true)
    (hen : v.biometricsEnabled = true)
    (h1 : truthyGet v.settings "encryptedKeyBiometrics" = some ekb)
    (h2 : truthyGet v.settings "salt" = some sb)
    (h3 : truthyGet v.settings "biometricsPassword" = some sp)
    (h4 : C.decryptStr ekb (C.deriveKeyFromPin sp (C.atob sb)) = some mke) :
    loginWithBiometrics C v true now
      = (true, { v with encryptionKey := some (C.importKey mke),
                        isAuthenticated := true, lastActivity := now }) := by
  unfold loginWithBiometrics
  rw [hav, hen]
  simp only [h1, h2, h3, h4, Bool.not_true, Bool.or_self, if_true]
  simp

/-- Witness for the C3 amended theorem: after setup and enableBiometrics and
a logout, a successful biometric prompt unlocks with the master key. -/
theorem c3_biometric_unlock_populates_key_when_decryptable_witness :
    loginWithBiometrics cc (logout bio2) true 500
      = (true, { (logout bio2) with
                   encryptionKey := some (cc.importKey "MK"),
                   isAuthenticated := true, lastActivity := 500 }) :=
  c3_biometric_unlock_populates_key_when_decryptable cc (logout bio2) 500
    "Sup3r!Pass.ABCDEFGHIJKLMNOP/MK" "ABCDEFGHIJKLMNOP" "Sup3r!Pass" "MK"
    (by decide) (by decide) (by decide) (by decide) (by decide) (by decide)

/-- C4 counterexample: after the concrete spec-scenario setup, the primary
and recovery envelopes share the one persisted salt: both verifier hashes
were computed against it and both wrapped keys decrypt under keys derived
from that same salt. -/
theorem c4_envelopes_share_salt :
    getSetting vSetup.settings "salt" = some (cc.btoa salt1) ∧
    getSetting vSetup.settings "passwordHash"
      = some (cc.hashPin ("Sup3r!Pass" ++ cc.btoa salt1)) ∧
    getSetting vSetup.settings "secretAnswerHash"
      = some (cc.hashPin (normalizeAnswer "Paris" ++ cc.btoa salt1)) ∧
    cc.decryptStr ((getSetting vSetup.settings "encryptedKey").getD "")
        (cc.deriveKeyFromPin "Sup3r!Pass"
          (cc.atob ((getSetting vSetup.settings "salt").getD ""))) = some "MK" ∧
    cc.decryptStr ((getSetting vSetup.settings "encryptedKeyRecovery").getD "")
        (cc.deriveKeyFromPin (normalizeAnswer "Paris")
          (cc.atob ((getSetting vSetup.settings "salt").getD ""))) = some "MK" := by
  decide

/-- C4 amended: setup draws a single salt and uses it for the primary and
the recovery envelope alike: the persisted salt, both verifier hashes and
both wrapped keys are all computed from that one salt value. -/
theorem c4_single_salt_for_both_envelopes {Key : Type} (C : Crypto Key)
    (v : AuthS Key) (pw q a : String) (salt : List Nat) (fk : Key)
    (iv1 iv2 now : Nat) :
    getSetting (setup C v pw q a salt fk iv1 iv2 now).settings "salt"
      = some (C.btoa salt) ∧
    getSetting (setup C v pw q a salt fk iv1 iv2 now).settings "passwordHash"
      = some (C.hashPin (pw ++ C.btoa salt)) ∧
    getSetting (setup C v pw q a salt fk iv1 iv2 now).settings "secretAnswerHash"
      = some (C.hashPin (normalizeAnswer a ++ C.btoa salt)) ∧
    getSetting (setup C v pw q a salt fk iv1 iv2 now).settings "encryptedKey"
      = some (C.encryptStr (C.exportKey fk) (C.deriveKeyFromPin pw salt) iv1) ∧
    getSetting (setup C v pw q a salt fk iv1 iv2 now).settings "encryptedKeyRecovery"
      = some (C.encryptStr (C.exportKey fk)
          (C.deriveKeyFromPin (normalizeAnswer a) salt) iv2) := by
  obtain ⟨h1, h2, h3, -, h5, h6⟩ := setup_lookups C v pw q a salt fk iv1 iv2 now
  exact ⟨h2, h1, h5, h3, h6⟩

/-- C5: after a successful enableBiometricGate(verifiedSecret), the settings
store holds verifiedSecret itself in plaintext under biometricsPassword, next
to the wrapped master key copy and the salt, and composing only stored values
(derive a key from the stored plaintext password and the stored salt, decrypt
the stored biometric wrapped key) recovers the exported master key without
any user secret or biometric check. -/
theorem c5_biometrics_password_stored_plaintext {Key : Type} (C : Crypto Key)
    (v : AuthS Key) (pw : String) (sh sb ek mke : String)
    (h1 : truthyGet v.settings "passwordHash" = some sh)
    (h2 : truthyGet v.settings "salt" = some sb)
    (h3 : truthyGet v.settings "encryptedKey" = some ek)
    (h4 : C.hashPin (pw ++ sb) = sh)
    (h5 : C.decryptStr ek (C.deriveKeyFromPin pw (C.atob sb)) = some mke) :
    (enableBiometrics C v pw).1 = true ∧
    getSetting (enableBiometrics C v pw).2.settings "biometricsPassword"
      = some pw ∧
    getSetting (enableBiometrics C v pw).2.settings "encryptedKeyBiometrics"
      = some ek ∧
    getSetting (enableBiometrics C v pw).2.settings "salt" = some sb ∧
    C.decryptStr
        ((getSetting (enableBiometrics C v pw).2.settings "encryptedKeyBiometrics").getD "")
        (C.deriveKeyFromPin
          ((getSetting (enableBiometrics C v pw).2.settings "biometricsPassword").getD "")
          (C.atob ((getSetting (enableBiometrics C v pw).2.settings "salt").getD "")))
      = some mke := by
  have hsv : getSetting v.settings "salt" = some sb := truthyGet_some h2
  unfold enableBiometrics
  rw [h1, h2, h3]
  simp only [h4, if_pos rfl, if_true]
  have e1 : getSetting
      (saveSetting (saveSetting (saveSetting v.settings "biometricsPassword" pw)
        "encryptedKeyBiometrics" ek) "biometricsEnabled" "true") "biometricsPassword"
      = some pw := by
    rw [getSetting_save_other _ _ (by decide), getSetting_save_other _ _ (by decide),
        getSetting_save_self]
  have e2 : getSetting
      (saveSetting (saveSetting (saveSetting v.settings "biometricsPassword" pw)
        "encryptedKeyBiometrics" ek) "biometricsEnabled" "true") "encryptedKeyBiometrics"
      = some ek := by
    rw [getSetting_save_other _ _ (by decide), getSetting_save_self]
  have e3 : getSetting
      (saveSetting (saveSetting (saveSetting v.settings "biometricsPassword" pw)
        "encryptedKeyBiometrics" ek) "biometricsEnabled" "true") "salt"
      = some sb := by
    rw [getSetting_save_other _ _ (by decide), getSetting_save_other _ _ (by decide),
        getSetting_save_other _ _ (by decide), hsv]
  exact ⟨trivial, e1, e2, e3, by rw [e1, e2, e3]; simpa using h5⟩

/-- Witness for C5 on the concrete spec-scenario vault. -/
theorem c5_biometrics_password_stored_plaintext_witness :
    (enableBiometrics cc bio1 "Sup3r!Pass").1 = true ∧
    getSetting (enableBiometrics cc bio1 "Sup3r!Pass").2.settings "biometricsPassword"
      = some "Sup3r!Pass" ∧
    getSetting (enableBiometrics cc bio1 "Sup3r!Pass").2.settings "encryptedKeyBiometrics"
      = some "Sup3r!Pass.ABCDEFGHIJKLMNOP/MK" ∧
    getSetting (enableBiometrics cc bio1 "Sup3r!Pass").2.settings "salt"
      = some "ABCDEFGHIJKLMNOP" ∧
    cc.decryptStr
        ((getSetting (enableBiometrics cc bio1 "Sup3r!Pass").2.settings "encryptedKeyBiometrics").getD "")
        (cc.deriveKeyFromPin
          ((getSetting (enableBiometrics cc bio1 "Sup3r!Pass").2.settings "biometricsPassword").getD "")
          (cc.atob ((getSetting (enableBiometrics cc bio1 "Sup3r!Pass").2.settings "salt").getD "")))
      = some "MK" :=
  c5_biometrics_password_stored_plaintext cc bio1 "Sup3r!Pass"
    "#Sup3r!PassABCDEFGHIJKLMNOP" "ABCDEFGHIJKLMNOP"
    "Sup3r!Pass.ABCDEFGHIJKLMNOP/MK" "MK"
    (by decide) (by decide) (by decide) (by decide) (by decide)

/-- C6 counterexample: a second setup on the already-configured vault does
not fail and does not leave the envelopes unchanged: it silently replaces
the password hash and the wrapped master key, after which the first password
no longer unlocks and the second one does. -/
theorem c6_second_setup_overwrites :
    dbl2.settings ≠ dbl1.settings ∧
    getSetting dbl2.settings "passwordHash" ≠ getSetting dbl1.settings "passwordHash" ∧
    getSetting dbl2.settings "encryptedKey" ≠ getSetting dbl1.settings "encryptedKey" ∧
    (login cc dbl2 "p1" 30).1 = false ∧
    (login cc dbl2 "p2" 30).1 = true := by
  decide

/-- C6 amended: setup performs no AlreadyConfigured check: from any state,
configured or not, it unconditionally persists fresh envelopes computed from
its arguments and ends set-up and authenticated. -/
theorem c6_setup_never_fails_and_overwrites {Key : Type} (C : Crypto Key)
    (v : AuthS Key) (pw q a : String) (salt : List Nat) (fk : Key)
    (iv1 iv2 now : Nat) :
    (setup C v pw q a salt fk iv1 iv2 now).isSetup = true ∧
    (setup C v pw q a salt fk iv1 iv2 now).isAuthenticated = true ∧
    getSetting (setup C v pw q a salt fk iv1 iv2 now).settings "passwordHash"
      = some (C.hashPin (pw ++ C.btoa salt)) ∧
    getSetting (setup C v pw q a salt fk iv1 iv2 now).settings "encryptedKey"
      = some (C.encryptStr (C.exportKey fk) (C.deriveKeyFromPin pw salt) iv1) := by
  obtain ⟨h1, -, h3, -, -, -⟩ := setup_lookups C v pw q a salt fk iv1 iv2 now
  exact ⟨rfl, rfl, h1, h3⟩

/-- C7: on a vault set up with any primary secret, any candidate secret
different from it (with the hash collision-free, as the one-way verifier
hash is modelled) makes login return false with the entire state, settings
included, exactly as before the call. -/
theorem c7_wrong_secret_false_and_unchanged {Key : Type} (C : Crypto Key)
    (hinj : Function.Injective C.hashPin)
    (v : AuthS Key) (pw q a : String) (salt : List Nat) (fk : Key)
    (iv1 iv2 now : Nat) (wrong : String) (now2 : Nat)
    (hne : wrong ≠ pw) :
    login C (setup C v pw q a salt fk iv1 iv2 now) wrong now2
      = (false, setup C v pw q a salt fk iv1 iv2 now) := by
  obtain ⟨hpH, hsalt, henc, -, -, -⟩ := setup_lookups C v pw q a salt fk iv1 iv2 now
  have hhash : C.hashPin (wrong ++ C.btoa salt) ≠ C.hashPin (pw ++ C.btoa salt) := by
    intro h
    exact hne (append_right_cancel_str (hinj h))
  unfold login
  simp only [truthyGet, hpH, hsalt, henc]
  split_ifs with h1 h2 h3 <;> try rfl
  simp only [if_neg hhash]

/-- Witness for C7 with an injective concrete hash. -/
theorem c7_wrong_secret_false_and_unchanged_witness :
    login ccId (setup ccId v0 "p" "q" "a" salt1 ("MK", []) 0 1 7) "x" 9
      = (false, setup ccId v0 "p" "q" "a" salt1 ("MK", []) 0 1 7) :=
  c7_wrong_secret_false_and_unchanged ccId (fun _ _ h => h)
    v0 "p" "q" "a" salt1 ("MK", []) 0 1 7 "x" 9 (by decide)

/-- C8: for every plaintext byte string (the empty one included) and every
key, decryptData applied to the ciphertext and nonce produced by encryptData
under the same key yields the plaintext, provided the AES-GCM collaborator
inverts itself on these inputs; and the string-level wrappers, which prepend
the 12-byte iv to the ciphertext and base64 the combined buffer, round-trip
as well given the base64 and UTF-8 codec contracts on these inputs. -/
theorem c8_encrypt_decrypt_roundtrip {Key : Type} (A : Aead Key)
    (T : TextCodec) (B : B64) (m : List Nat) (text : String) (k : Key)
    (iv : List Nat)
    (hlen : iv.length = 12)
    (hA : A.subtleDecrypt iv k (A.subtleEncrypt iv k m) = some m)
    (hA2 : A.subtleDecrypt iv k (A.subtleEncrypt iv k (T.encode text))
      = some (T.encode text))
    (hB : B.base64ToArrayBuffer
        (B.arrayBufferToBase64 (iv ++ A.subtleEncrypt iv k (T.encode text)))
      = iv ++ A.subtleEncrypt iv k (T.encode text))
    (hT : T.decode (T.encode text) = text) :
    decryptData A (encryptData A m k iv).1 k (encryptData A m k iv).2 = some m ∧
    decryptString A T B (encryptString A T B text k iv) k = some text := by
  constructor
  · simp [encryptData, decryptData, hA]
  · unfold encryptString decryptString encryptData decryptData
    simp only [hB]
    rw [← hlen, List.take_left, List.drop_left]
    simp [hA2, hT]

/-- Witness for C8 at the empty byte string and a two-character text, with
the executable collaborator instances. -/
theorem c8_encrypt_decrypt_roundtrip_witness :
    decryptData aeadC
        (encryptData aeadC [] 7 [1, 2, 3, 4, 5, 6, 7, 8, 9, 10, 11, 12]).1 7
        (encryptData aeadC [] 7 [1, 2, 3, 4, 5, 6, 7, 8, 9, 10, 11, 12]).2
      = some [] ∧
    decryptString aeadC textC b64C
        (encryptString aeadC textC b64C "ab" 7 [1, 2, 3, 4, 5, 6, 7, 8, 9, 10, 11, 12]) 7
      = some "ab" :=
  c8_encrypt_decrypt_roundtrip aeadC textC b64C [] "ab" 7
    [1, 2, 3, 4, 5, 6, 7, 8, 9, 10, 11, 12]
    (by decide) (by decide) (by decide) (by decide) (by decide)

/-- C9: on a vault set up with any recovery answer, every candidate whose
lower-cased trimmed form equals the lower-cased trimmed form of the answer
verifies successfully, as long as the stored hash and salt strings are
non-empty so that the truthiness guards pass. -/
theorem c9_recovery_answer_normalized {Key : Type} (C : Crypto Key)
    (v : AuthS Key) (pw q a : String) (salt : List Nat) (fk : Key)
    (iv1 iv2 now : Nat) (c : String)
    (hc : normalizeAnswer c = normalizeAnswer a)
    (hh : C.hashPin (normalizeAnswer a ++ C.btoa salt) ≠ "")
    (hs : C.btoa salt ≠ "") :
    verifySecretAnswer C (setup C v pw q a salt fk iv1 iv2 now) c = true := by
  obtain ⟨-, hsalt, -, -, haH, -⟩ := setup_lookups C v pw q a salt fk iv1 iv2 now
  unfold verifySecretAnswer
  simp only [truthyGet, hsalt, haH]
  rw [if_neg hh, if_neg hs, hc]
  simp

/-- Witness for C9 on the spec scenario: answer Paris set at setup, candidate
with extra case and surrounding whitespace. -/
theorem c9_recovery_answer_normalized_witness :
    verifySecretAnswer cc
      (setup cc v0 "Sup3r!Pass" "city of birth" "Paris" salt1 ("MK", []) 0 1 100)
      "  paris " = true :=
  c9_recovery_answer_normalized cc v0 "Sup3r!Pass" "city of birth" "Paris"
    salt1 ("MK", []) 0 1 100 "  paris " (by decide) (by decide) (by decide)

/-- C10: the auto-lock condition compares the elapsed time to the 300000 ms
timeout with a strict greater-than: at 299 seconds past the last activity it
does not fire, at exactly 300 seconds it still does not fire, and at 301
seconds it fires. -/
theorem c10_idle_check_strict (t0 : Int) :
    autoLockFires (t0 + 299000) t0 = false ∧
    autoLockFires (t0 + 300000) t0 = false ∧
    autoLockFires (t0 + 301000) t0 = true := by
  refine ⟨?_, ?_, ?_⟩ <;>
    · simp only [autoLockFires, INACTIVITY_TIMEOUT, gt_iff_lt,
        decide_eq_false_iff_not, decide_eq_true_eq, not_lt]
      omega

end DocSafe
